import Mathlib

/-!
Shallow embedding of the browser console client scripts
(src/static/rag_console.js, src/unnamed/part_000, src/unnamed/part_001
which holds two script variants, called A for lines 1-335 and B for
lines 336-467).  Each click handler is modelled as a pure function from
the page state and an environment (the platform's JSON parser and
serializer, and the HTTP response the single fetch of the handler would
receive) to an outcome: the final page state, the list of network
requests issued, an event trace, and any clipboard writes or file
downloads.  Platform functions (JSON.parse, JSON.stringify) are
parameters of the environment, since the scripts call browser builtins.
-/

/-- JSON values as JavaScript sees them after JSON.parse.  Numbers are
modelled as integers, which covers every value the claims mention. -/
inductive Json where
  | str : String → Json
  | num : Int → Json
  | bool : Bool → Json
  | null : Json
  | arr : List Json → Json
  | obj : List (String × Json) → Json

/-- JavaScript truthiness of a parsed JSON value: empty string, zero,
false and null are falsy; arrays and objects are always truthy. -/
def Json.truthy : Json → Bool
  | Json.str s => s ≠ ""
  | Json.num n => n ≠ 0
  | Json.bool b => b
  | Json.null => false
  | Json.arr _ => true
  | Json.obj _ => true

/-- Truthiness of a possibly-absent property (undefined is falsy). -/
def truthyOpt : Option Json → Bool
  | none => false
  | some j => j.truthy

/-- The value held by callApi's data variable: either a decoded JSON
value or, when decoding failed, the raw response text (source line 12
of every variant: try JSON.parse, catch keeps the text). -/
inductive ApiValue where
  | json : Json → ApiValue
  | raw : String → ApiValue

/-- Truthiness of the response value res (a raw string is falsy exactly
when empty). -/
def apiTruthy : ApiValue → Bool
  | ApiValue.json j => j.truthy
  | ApiValue.raw s => s ≠ ""

/-- Property lookup res.case_id style: only a decoded JSON object has
properties; a raw string or non-object value yields undefined (none). -/
def apiField (v : ApiValue) (k : String) : Option Json :=
  match v with
  | ApiValue.json (Json.obj fs) => fs.lookup k
  | _ => none

/-- An HTTP response as the scripts observe it: the numeric status and
the full body already read as text (source lines 6-10). -/
structure HttpResponse where
  status : Nat
  bodyText : String

/-- The resp.ok test of the fetch API: status in the 2xx success range. -/
def respOk (r : HttpResponse) : Bool :=
  decide (200 ≤ r.status) && decide (r.status < 300)

/-- The object thrown by callApi on a non-ok response (source line 13):
it carries the numeric status and the decoded-or-raw body. -/
structure ApiError where
  status : Nat
  body : ApiValue

/-- Decoding step of callApi (source lines 10-12): attempt JSON.parse
on the body text; on failure the raw text is the value. -/
def decodeOrRaw (jsonParse : String → Option Json) (text : String) : ApiValue :=
  match jsonParse text with
  | some j => ApiValue.json j
  | none => ApiValue.raw text

/-- callApi (source lines 5-15, identical in all four variants): read
the body as text, decode or keep raw, then throw status-plus-body on a
non-ok status, else return the value.  The network itself is abstracted
into the response argument. -/
def callApi (jsonParse : String → Option Json) (resp : HttpResponse) :
    Except ApiError ApiValue :=
  let data := decodeOrRaw jsonParse resp.bodyText
  if respOk resp then Except.ok data
  else Except.error { status := resp.status, body := data }

/-- Environment of one click: the platform's JSON.parse (none on a
parse exception) and JSON.stringify, the HTTP response that the
handler's single fetch would receive, and clipboard capabilities for
the report-export handlers. -/
structure Env where
  jsonParse : String → Option Json
  stringify : Json → String
  resp : HttpResponse
  clipboardAvailable : Bool
  clipboardWriteOk : Bool
  execCopyOk : Bool

/-- pretty (source lines 17-19): JSON.stringify of the value; a raw
string value is serialized as a JSON string. -/
def pretty (env : Env) : ApiValue → String
  | ApiValue.json j => env.stringify j
  | ApiValue.raw s => env.stringify (Json.str s)

/-- JavaScript (jsTrim String.prototype), modelled executably: strip
whitespace characters from both ends. -/
def jsTrim (s : String) : String :=
  String.mk (((s.data.dropWhile Char.isWhitespace).reverse.dropWhile
    Char.isWhitespace).reverse)

/-- Longest leading run of decimal digits of a character list. -/
def leadingDigits : List Char → List Char
  | [] => []
  | c :: cs => if c.isDigit then c :: leadingDigits cs else []

/-- Numeric value of a digit list, most significant first. -/
def digitsVal (ds : List Char) : Int :=
  ds.foldl (fun a c => 10 * a + (Int.ofNat (c.toNat - 48))) 0

/-- JavaScript parseInt(s, 10): skip leading whitespace, read an
optional sign and the longest digit prefix; NaN (modelled as none) when
no digit follows. -/
def parseIntJS (s : String) : Option Int :=
  let cs := s.data.dropWhile Char.isWhitespace
  let signAndRest : Int × List Char :=
    match cs with
    | '-' :: rest => (-1, rest)
    | '+' :: rest => (1, rest)
    | _ => (1, cs)
  let ds := leadingDigits signAndRest.2
  if ds.isEmpty then none else some (signAndRest.1 * digitsVal ds)

/-- The top_k expression of the three search handlers that pass radix
10 (part_000 line 80, part_001 lines 130 and 423): parseInt of the raw
field value with the string "5" substituted when the field is empty;
NaN (none) survives when a non-empty value has no digit prefix. -/
def topKOf (v : String) : Option Int :=
  parseIntJS (if v = "" then "5" else v)

/-- Hexadecimal digit test for radix-free parseInt. -/
def isHexDigit (c : Char) : Bool :=
  c.isDigit || ('a' ≤ c && c ≤ 'f') || ('A' ≤ c && c ≤ 'F')

/-- Longest leading run of hexadecimal digits of a character list. -/
def leadingHexDigits : List Char → List Char
  | [] => []
  | c :: cs => if isHexDigit c then c :: leadingHexDigits cs else []

/-- Numeric value of one hexadecimal digit. -/
def hexDigitVal (c : Char) : Int :=
  if c.isDigit then Int.ofNat (c.toNat - 48)
  else if 'a' ≤ c && c ≤ 'f' then Int.ofNat (c.toNat - 87)
  else Int.ofNat (c.toNat - 55)

/-- Numeric value of a hexadecimal digit list, most significant first. -/
def hexDigitsVal (ds : List Char) : Int :=
  ds.foldl (fun a c => 16 * a + hexDigitVal c) 0

/-- JavaScript parseInt(s) with the radix argument omitted: skip
leading whitespace and an optional sign; a 0x or 0X prefix switches to
hexadecimal on the digits that follow it, anything else is read in base
10; NaN (none) when no digit follows. -/
def parseIntJSAuto (s : String) : Option Int :=
  let cs := s.data.dropWhile Char.isWhitespace
  let signAndRest : Int × List Char :=
    match cs with
    | '-' :: rest => (-1, rest)
    | '+' :: rest => (1, rest)
    | _ => (1, cs)
  match signAndRest.2 with
  | '0' :: c :: rest =>
      if c = 'x' ∨ c = 'X' then
        let ds := leadingHexDigits rest
        if ds.isEmpty then none else some (signAndRest.1 * hexDigitsVal ds)
      else
        let ds := leadingDigits signAndRest.2
        if ds.isEmpty then none else some (signAndRest.1 * digitsVal ds)
  | _ =>
      let ds := leadingDigits signAndRest.2
      if ds.isEmpty then none else some (signAndRest.1 * digitsVal ds)

/-- The top_k expression of the rag_console.js search handler (line
71): parseInt without a radix argument, so a 0x prefix is read as
hexadecimal; the string "5" is substituted when the field is empty. -/
def topKOfRC (v : String) : Option Int :=
  parseIntJSAuto (if v = "" then "5" else v)

/-- Request bodies built by the handlers, as structured data before
JSON.stringify.  top_k is Option Int: none models NaN, which
JSON.stringify serializes as null. -/
inductive ReqBody where
  | ingest : String → Json → ReqBody
  | ingestNoMeta : String → ReqBody
  | search : Json → String → Option Int → Bool → ReqBody
  | searchNoCase : String → Option Int → Bool → ReqBody
  | file : String → ReqBody
  | explain : Json → ReqBody
  | mitre : Json → String → ReqBody

/-- One network request as issued by a handler. -/
structure NetRequest where
  path : String
  method : String
  body : ReqBody

/-- Events of one handler run, used to state the ordering contract:
validation passed, trigger disabled, request issued, response rendered,
trigger re-enabled. -/
inductive Event where
  | validated : Event
  | disabled : Event
  | req : String → Event
  | rendered : Event
  | enabled : Event

/-- One file download triggered by the export handler. -/
structure Download where
  filename : String
  content : String
  mime : String

/-- The page state: values of every form field, status and result
region across the variants, plus the script-level lastCaseId variable
(a JavaScript value, initially the empty string).  caseIdInput is the
optional case-id field of variant B (none when the element is absent,
as on the other pages). -/
structure DomState where
  ingestText : String
  ingestMetadata : String
  ingestStatus : String
  ingestResult : String
  ingestDisabled : Bool
  ingestFileSel : Option String
  ingestFileStatus : String
  ingestFileResult : String
  ingestFileDisabled : Bool
  searchQuery : String
  searchTopK : String
  searchIncludeMeta : Bool
  searchStatus : String
  searchResult : String
  searchDisabled : Bool
  caseIdInput : Option String
  explainStatus : String
  explainResult : String
  explainDisabled : Bool
  mitreStatus : String
  mitreResult : String
  mitreDisabled : Bool
  lastCaseId : Json

/-- Outcome of one click-handler run. -/
structure Outcome where
  st : DomState
  calls : List NetRequest
  trace : List Event
  clipboardWrites : List String
  downloads : List Download

/-- Outcome of a run that stopped at local validation: no network
call, no trace past validation, no export side effect. -/
def noCall (st : DomState) : Outcome :=
  { st := st, calls := [], trace := [], clipboardWrites := [], downloads := [] }

/-- The full five-event trace of an operation that passed validation. -/
def fullTrace (path : String) : List Event :=
  [Event.validated, Event.disabled, Event.req path, Event.rendered, Event.enabled]

/-- The metadata expression of the ingest handlers of part_000 line 38
and part_001 lines 38 and 374: JSON.parse of the trimmed field when
non-empty, the default object when empty; none models the parse
exception. -/
def parsedMetadata (env : Env) (metadataRaw : String) : Option Json :=
  if metadataRaw = "" then some (Json.obj [("source", Json.str "ui")])
  else env.jsonParse metadataRaw

/-- The lastCaseId update of a successful ingest (part_000 lines 58-60,
part_001 lines 58-60, 115-117 and 399-403): overwrite only when the
response is truthy and has a truthy case_id property. -/
def newCaseId (old : Json) (res : ApiValue) : Json :=
  if apiTruthy res then
    match apiField res "case_id" with
    | some c => if c.truthy then c else old
    | none => old
  else old

/-- Rendering of the explain response (part_001 line 229, the
expression res.summary with the pretty fallback): a truthy string
summary property is shown as is, anything else falls back to the
pretty-printed response.  Per the backend contract the summary property
is a string, so non-string summary values are outside the model. -/
def explainRender (env : Env) (res : ApiValue) : String :=
  match apiField res "summary" with
  | some (Json.str s) => if s ≠ "" then s else pretty env res
  | _ => pretty env res

/-- Rendering of the MITRE response (part_001 line 327): a truthy tags
property is pretty-printed on its own, otherwise the full response. -/
def mitreRender (env : Env) (res : ApiValue) : String :=
  match apiField res "tags" with
  | some t => if t.truthy then env.stringify t else pretty env res
  | none => pretty env res

/-- Text-ingest click handler of part_000 lines 25-67, identical in
part_001 variant A lines 25-67: validate the trimmed text and the
metadata field, POST /ingest with body text-plus-metadata, remember a
truthy case_id of a successful response, render status and result, and
re-enable the button in the finally block of both branches. -/
def ingestClick (st : DomState) (env : Env) : Outcome :=
  let text := (jsTrim st.ingestText)
  let metadataRaw := (jsTrim st.ingestMetadata)
  if text = "" then
    noCall { st with ingestStatus := "Enter text." }
  else
    match parsedMetadata env metadataRaw with
    | none =>
        noCall { st with ingestStatus := "Invalid metadata JSON." }
    | some metadata =>
        let rq : NetRequest :=
          { path := "/ingest", method := "POST", body := ReqBody.ingest text metadata }
        match callApi env.jsonParse env.resp with
        | Except.ok res =>
            { st := { st with
                ingestStatus := "Ingest OK.",
                ingestResult := pretty env res,
                lastCaseId := newCaseId st.lastCaseId res,
                ingestDisabled := false },
              calls := [rq], trace := fullTrace "/ingest",
              clipboardWrites := [], downloads := [] }
        | Except.error e =>
            { st := { st with
                ingestStatus := "Error: " ++ toString e.status,
                ingestResult := pretty env e.body,
                ingestDisabled := false },
              calls := [rq], trace := fullTrace "/ingest",
              clipboardWrites := [], downloads := [] }

/-- Echo of a successful ingest case_id into the optional case-id input
field (part_001 variant B lines 401-402): when the element exists its
value becomes the returned identifier.  Per the backend contract the
case_id property is a string; non-string values are outside the model. -/
def echoCaseId (inp : Option String) (res : ApiValue) : Option String :=
  if apiTruthy res then
    match apiField res "case_id" with
    | some (Json.str s) => if s ≠ "" then inp.map (fun _ => s) else inp
    | _ => inp
  else inp

/-- Text-ingest click handler of part_001 variant B lines 361-410: like
ingestClick, except that metadata is attached to the body only when the
parsed value is truthy (line 387), and a returned case_id is also
echoed into the case-id input field when that element exists. -/
def ingestClickB (st : DomState) (env : Env) : Outcome :=
  let text := (jsTrim st.ingestText)
  let metadataRaw := (jsTrim st.ingestMetadata)
  if text = "" then
    noCall { st with ingestStatus := "Enter text." }
  else
    match parsedMetadata env metadataRaw with
    | none =>
        noCall { st with ingestStatus := "Invalid metadata JSON." }
    | some metadata =>
        let rq : NetRequest :=
          { path := "/ingest", method := "POST",
            body := if metadata.truthy then ReqBody.ingest text metadata
                    else ReqBody.ingestNoMeta text }
        match callApi env.jsonParse env.resp with
        | Except.ok res =>
            { st := { st with
                ingestStatus := "Ingest OK.",
                ingestResult := pretty env res,
                lastCaseId := newCaseId st.lastCaseId res,
                caseIdInput := echoCaseId st.caseIdInput res,
                ingestDisabled := false },
              calls := [rq], trace := fullTrace "/ingest",
              clipboardWrites := [], downloads := [] }
        | Except.error e =>
            { st := { st with
                ingestStatus := "Error: " ++ toString e.status,
                ingestResult := pretty env e.body,
                ingestDisabled := false },
              calls := [rq], trace := fullTrace "/ingest",
              clipboardWrites := [], downloads := [] }

/-- File-ingest click handler of part_001 variant A lines 82-124: clear
the status and result regions, require a selected file, POST the
multipart form to /ingest_file, and apply the same decode, throw,
render, case_id-capture and re-enable logic as callApi inlined. -/
def ingestFileClick (st : DomState) (env : Env) : Outcome :=
  let st0 := { st with ingestFileStatus := "", ingestFileResult := "\x7b\x7d" }
  match st.ingestFileSel with
  | none =>
      noCall { st0 with ingestFileStatus := "Choose a file first." }
  | some filename =>
      let rq : NetRequest :=
        { path := "/ingest_file", method := "POST", body := ReqBody.file filename }
      match callApi env.jsonParse env.resp with
      | Except.ok data =>
          { st := { st0 with
              ingestFileStatus := "File ingest OK.",
              ingestFileResult := pretty env data,
              lastCaseId := newCaseId st.lastCaseId data,
              ingestFileDisabled := false },
            calls := [rq], trace := fullTrace "/ingest_file",
            clipboardWrites := [], downloads := [] }
      | Except.error e =>
          { st := { st0 with
              ingestFileStatus := "Error: " ++ toString e.status,
              ingestFileResult := pretty env e.body,
              ingestFileDisabled := false },
            calls := [rq], trace := fullTrace "/ingest_file",
            clipboardWrites := [], downloads := [] }

/-- Search click handler of part_000 lines 78-116: trimmed query and
stored lastCaseId are both required, then POST /search with case_id,
query, top_k and include_metadata, render and re-enable. -/
def searchClick (st : DomState) (env : Env) : Outcome :=
  let query := (jsTrim st.searchQuery)
  let top_k := topKOf st.searchTopK
  let include_metadata := st.searchIncludeMeta
  let case_id := st.lastCaseId
  if query = "" then
    noCall { st with searchStatus := "Enter query." }
  else if case_id.truthy = false then
    noCall { st with searchStatus := "Missing case_id: ingest first." }
  else
    let rq : NetRequest :=
      { path := "/search", method := "POST",
        body := ReqBody.search case_id query top_k include_metadata }
    match callApi env.jsonParse env.resp with
    | Except.ok res =>
        { st := { st with
            searchStatus := "Search OK.",
            searchResult := pretty env res,
            searchDisabled := false },
          calls := [rq], trace := fullTrace "/search",
          clipboardWrites := [], downloads := [] }
    | Except.error e =>
        { st := { st with
            searchStatus := "Error: " ++ toString e.status,
            searchResult := pretty env e.body,
            searchDisabled := false },
          calls := [rq], trace := fullTrace "/search",
          clipboardWrites := [], downloads := [] }

/-- Search click handler of part_001 variant A lines 128-166: same as
searchClick apart from the wording of the missing-case message. -/
def searchClickA (st : DomState) (env : Env) : Outcome :=
  let query := (jsTrim st.searchQuery)
  let top_k := topKOf st.searchTopK
  let include_metadata := st.searchIncludeMeta
  let case_id := st.lastCaseId
  if query = "" then
    noCall { st with searchStatus := "Enter query." }
  else if case_id.truthy = false then
    noCall { st with searchStatus := "Missing case_id: ingest first (text or file)." }
  else
    let rq : NetRequest :=
      { path := "/search", method := "POST",
        body := ReqBody.search case_id query top_k include_metadata }
    match callApi env.jsonParse env.resp with
    | Except.ok res =>
        { st := { st with
            searchStatus := "Search OK.",
            searchResult := pretty env res,
            searchDisabled := false },
          calls := [rq], trace := fullTrace "/search",
          clipboardWrites := [], downloads := [] }
    | Except.error e =>
        { st := { st with
            searchStatus := "Error: " ++ toString e.status,
            searchResult := pretty env e.body,
            searchDisabled := false },
          calls := [rq], trace := fullTrace "/search",
          clipboardWrites := [], downloads := [] }

/-- The case identifier used by the variant-B search handler (part_001
line 430): the trimmed value of the case-id input when that element
exists and the value is non-empty, else the stored lastCaseId. -/
def caseIdB (st : DomState) : Json :=
  match st.caseIdInput with
  | some v => if (jsTrim v) = "" then st.lastCaseId else Json.str (jsTrim v)
  | none => st.lastCaseId

/-- Search click handler of part_001 variant B lines 421-462: a
manually entered non-empty case id takes precedence over the stored
one; otherwise as searchClick with its own missing-case message. -/
def searchClickB (st : DomState) (env : Env) : Outcome :=
  let query := (jsTrim st.searchQuery)
  let top_k := topKOf st.searchTopK
  let include_metadata := st.searchIncludeMeta
  let case_id := caseIdB st
  if query = "" then
    noCall { st with searchStatus := "Enter query." }
  else if case_id.truthy = false then
    noCall { st with searchStatus := "Missing case_id: ingest text first or enter a case id." }
  else
    let rq : NetRequest :=
      { path := "/search", method := "POST",
        body := ReqBody.search case_id query top_k include_metadata }
    match callApi env.jsonParse env.resp with
    | Except.ok res =>
        { st := { st with
            searchStatus := "Search OK.",
            searchResult := pretty env res,
            searchDisabled := false },
          calls := [rq], trace := fullTrace "/search",
          clipboardWrites := [], downloads := [] }
    | Except.error e =>
        { st := { st with
            searchStatus := "Error: " ++ toString e.status,
            searchResult := pretty env e.body,
            searchDisabled := false },
          calls := [rq], trace := fullTrace "/search",
          clipboardWrites := [], downloads := [] }

/-- Search click handler of rag_console.js lines 69-98: this variant
keeps no case identifier at all; the only precondition is a non-empty
trimmed query, the body sent is query, top_k and include_metadata, and
its top_k comes from the radix-free parseInt of line 71. -/
def searchClickRC (st : DomState) (env : Env) : Outcome :=
  let query := (jsTrim st.searchQuery)
  let top_k := topKOfRC st.searchTopK
  let include_metadata := st.searchIncludeMeta
  if query = "" then
    noCall { st with searchStatus := "Enter query." }
  else
    let rq : NetRequest :=
      { path := "/search", method := "POST",
        body := ReqBody.searchNoCase query top_k include_metadata }
    match callApi env.jsonParse env.resp with
    | Except.ok res =>
        { st := { st with
            searchStatus := "Search OK.",
            searchResult := pretty env res,
            searchDisabled := false },
          calls := [rq], trace := fullTrace "/search",
          clipboardWrites := [], downloads := [] }
    | Except.error e =>
        { st := { st with
            searchStatus := "Error: " ++ toString e.status,
            searchResult := pretty env e.body,
            searchDisabled := false },
          calls := [rq], trace := fullTrace "/search",
          clipboardWrites := [], downloads := [] }

/-- Explain-case click handler of part_001 variant A lines 212-236: a
truthy lastCaseId is required, then POST /explain_case with the case
id, render the summary or the full response, and re-enable. -/
def explainClick (st : DomState) (env : Env) : Outcome :=
  if st.lastCaseId.truthy = false then
    noCall { st with explainStatus := "No case selected." }
  else
    let rq : NetRequest :=
      { path := "/explain_case", method := "POST",
        body := ReqBody.explain st.lastCaseId }
    match callApi env.jsonParse env.resp with
    | Except.ok res =>
        { st := { st with
            explainStatus := "AI summary ready.",
            explainResult := explainRender env res,
            explainDisabled := false },
          calls := [rq], trace := fullTrace "/explain_case",
          clipboardWrites := [], downloads := [] }
    | Except.error e =>
        { st := { st with
            explainStatus := "Error: " ++ toString e.status,
            explainResult := pretty env e.body,
            explainDisabled := false },
          calls := [rq], trace := fullTrace "/explain_case",
          clipboardWrites := [], downloads := [] }

/-- MITRE-extraction click handler of part_001 variant A lines 303-334:
requires a truthy lastCaseId and a rendered summary that is neither
empty nor the placeholder, then POST /mitre_tags with case id and
summary, render tags or the full response, and re-enable. -/
def mitreClick (st : DomState) (env : Env) : Outcome :=
  let summary := (jsTrim st.explainResult)
  if st.lastCaseId.truthy = false then
    noCall { st with mitreStatus := "No case selected." }
  else if summary = "" ∨ summary = "\x7b\x7d" then
    noCall { st with mitreStatus := "No summary yet. Run Explain Case first." }
  else
    let rq : NetRequest :=
      { path := "/mitre_tags", method := "POST",
        body := ReqBody.mitre st.lastCaseId summary }
    match callApi env.jsonParse env.resp with
    | Except.ok res =>
        { st := { st with
            mitreStatus := "MITRE extraction OK.",
            mitreResult := mitreRender env res,
            mitreDisabled := false },
          calls := [rq], trace := fullTrace "/mitre_tags",
          clipboardWrites := [], downloads := [] }
    | Except.error e =>
        { st := { st with
            mitreStatus := "Error: " ++ toString e.status,
            mitreResult := pretty env e.body,
            mitreDisabled := false },
          calls := [rq], trace := fullTrace "/mitre_tags",
          clipboardWrites := [], downloads := [] }

/-- Ingest-clear click handler (part_000 lines 69-74, identical in the
other variants): reset the two input fields, blank the status, restore
the result placeholder.  No network call, nothing else touched. -/
def ingestClear (st : DomState) : Outcome :=
  noCall { st with
    ingestText := "",
    ingestMetadata := "",
    ingestStatus := "",
    ingestResult := "\x7b\x7d" }

/-- Search-clear click handler (part_000 lines 118-122, identical in
the other variants): reset the query, restore the result placeholder,
blank the status.  No network call, nothing else touched. -/
def searchClear (st : DomState) : Outcome :=
  noCall { st with
    searchQuery := "",
    searchResult := "\x7b\x7d",
    searchStatus := "" }

/-- Report-copy click handler of part_001 variant A lines 242-271: the
trimmed summary region must be neither empty nor the placeholder, then
the text is written to the clipboard when that capability exists, with
a selection-and-execCommand fallback otherwise.  clipboardWrites
records the copies that succeeded. -/
def copyClick (st : DomState) (env : Env) : Outcome :=
  let text := (jsTrim st.explainResult)
  if text = "" ∨ text = "\x7b\x7d" then
    noCall { st with explainStatus := "Nothing to copy yet. Run Explain Case first." }
  else if env.clipboardAvailable then
    if env.clipboardWriteOk then
      { st := { st with explainStatus := "Report copied to clipboard." },
        calls := [], trace := [], clipboardWrites := [text], downloads := [] }
    else
      { st := { st with explainStatus := "Copy failed." },
        calls := [], trace := [], clipboardWrites := [], downloads := [] }
  else
    if env.execCopyOk then
      { st := { st with explainStatus := "Report copied to clipboard." },
        calls := [], trace := [], clipboardWrites := [text], downloads := [] }
    else
      { st := { st with explainStatus := "Copy failed." },
        calls := [], trace := [], clipboardWrites := [], downloads := [] }

/-- Report-download click handler of part_001 variant A lines 273-296:
the trimmed summary region must be neither empty nor the placeholder,
then a markdown file named after the current case identifier (or the
placeholder name) is downloaded and the status reports the name. -/
def downloadClick (st : DomState) : Outcome :=
  let text := (jsTrim st.explainResult)
  if text = "" ∨ text = "\x7b\x7d" then
    noCall { st with explainStatus := "Nothing to download yet. Run Explain Case first." }
  else
    let caseIdForName : String :=
      match st.lastCaseId with
      | Json.str s => if s = "" then "unknown_case" else s
      | _ => "unknown_case"
    let filename := "dfir_report_" ++ caseIdForName ++ ".md"
    { st := { st with explainStatus := "Report downloaded as " ++ filename ++ "." },
      calls := [], trace := [], clipboardWrites := [],
      downloads := [{ filename := filename, content := text, mime := "text/markdown" }] }

/-- Empty page state, matching the initial DOM: blank fields, the
result placeholders, no file selected, no case-id element, lastCaseId
the empty string (source line 21). -/
def baseState : DomState :=
  { ingestText := "", ingestMetadata := "", ingestStatus := "",
    ingestResult := "\x7b\x7d", ingestDisabled := false,
    ingestFileSel := none, ingestFileStatus := "",
    ingestFileResult := "\x7b\x7d", ingestFileDisabled := false,
    searchQuery := "", searchTopK := "", searchIncludeMeta := false,
    searchStatus := "", searchResult := "\x7b\x7d", searchDisabled := false,
    caseIdInput := none, explainStatus := "", explainResult := "\x7b\x7d",
    explainDisabled := false, mitreStatus := "", mitreResult := "\x7b\x7d",
    mitreDisabled := false, lastCaseId := Json.str "" }

/-- Concrete JSON.parse instance for witnesses: a few fixed body texts
decode to fixed values, everything else fails to parse. -/
def parse0 : String → Option Json
  | "ingest-response" => some (Json.obj [("case_id", Json.str "c-123")])
  | "summary-empty" => some (Json.obj [("summary", Json.str "")])
  | "summary-good" => some (Json.obj [("summary", Json.str "All quiet")])
  | "search-response" => some (Json.obj [("results", Json.arr [])])
  | _ => none

/-- Concrete JSON.stringify instance for witnesses.  Like the real
serializer, it never returns the empty string on an object. -/
def stringify0 : Json → String := fun _ => "serialized"

/-- Witness environment with a 200 response carrying the given body. -/
def env200 (body : String) : Env :=
  { jsonParse := parse0, stringify := stringify0,
    resp := { status := 200, bodyText := body },
    clipboardAvailable := true, clipboardWriteOk := true, execCopyOk := true }

/-- Witness environment with a 404 response carrying the given body. -/
def env404 (body : String) : Env :=
  { jsonParse := parse0, stringify := stringify0,
    resp := { status := 404, bodyText := body },
    clipboardAvailable := true, clipboardWriteOk := true, execCopyOk := true }

/-- Page state after typing ingest text, for witnesses. -/
def stIngest : DomState := { baseState with ingestText := "evidence log" }

/-- Page state with a query typed and a stored case id, for witnesses. -/
def stSearch : DomState :=
  { baseState with searchQuery := "errors", lastCaseId := Json.str "c-123" }

/-- Page state with a query typed but no case id ever stored. -/
def stSearchNoCase : DomState := { baseState with searchQuery := "list users" }

/-- Page state with a non-numeric top_k field, a query and a case id. -/
def stTopK : DomState :=
  { baseState with
    searchQuery := "login failures",
    searchTopK := "abc",
    lastCaseId := Json.str "c-123" }

/-- Page state with a stored case id only, for the explain handler. -/
def stExplain : DomState := { baseState with lastCaseId := Json.str "c-123" }

/-- Decoded ingest response carrying a case id. -/
def resIngest : ApiValue := ApiValue.json (Json.obj [("case_id", Json.str "c-123")])

/-- Decoded explain response whose summary property is present but empty. -/
def resSummaryEmpty : ApiValue := ApiValue.json (Json.obj [("summary", Json.str "")])

theorem callApi_ok_of (p : String → Option Json) (r : HttpResponse)
    (h : respOk r = true) : callApi p r = Except.ok (decodeOrRaw p r.bodyText) := by
  simp [callApi, h]

theorem callApi_error_of (p : String → Option Json) (r : HttpResponse)
    (h : respOk r = false) :
    callApi p r = Except.error { status := r.status, body := decodeOrRaw p r.bodyText } := by
  simp [callApi, h]

theorem apiTruthy_of_field (res : ApiValue) (k : String) (j : Json)
    (h : apiField res k = some j) : apiTruthy res = true := by
  cases res with
  | json v => cases v <;> simp_all [apiField, apiTruthy, Json.truthy]
  | raw s => simp [apiField] at h

theorem truthy_str_of (s : String) (h : s ≠ "") : (Json.str s).truthy = true := by
  simp [Json.truthy, h]

theorem newCaseId_of_field (old : Json) (res : ApiValue) (c : String)
    (hfield : apiField res "case_id" = some (Json.str c)) (hc : c ≠ "") :
    newCaseId old res = Json.str c := by
  have ht := apiTruthy_of_field res "case_id" (Json.str c) hfield
  simp [newCaseId, ht, hfield, truthy_str_of c hc]

theorem newCaseId_of_no_field (old : Json) (res : ApiValue)
    (hfield : apiField res "case_id" = none) : newCaseId old res = old := by
  simp [newCaseId, hfield]

theorem searchClick_lastCaseId (st : DomState) (env : Env) :
    (searchClick st env).st.lastCaseId = st.lastCaseId := by
  simp only [searchClick]
  repeat' split
  all_goals rfl

theorem searchClickA_lastCaseId (st : DomState) (env : Env) :
    (searchClickA st env).st.lastCaseId = st.lastCaseId := by
  simp only [searchClickA]
  repeat' split
  all_goals rfl

theorem searchClickB_lastCaseId (st : DomState) (env : Env) :
    (searchClickB st env).st.lastCaseId = st.lastCaseId := by
  simp only [searchClickB]
  repeat' split
  all_goals rfl

theorem searchClickRC_lastCaseId (st : DomState) (env : Env) :
    (searchClickRC st env).st.lastCaseId = st.lastCaseId := by
  simp only [searchClickRC]
  repeat' split
  all_goals rfl

theorem explainClick_lastCaseId (st : DomState) (env : Env) :
    (explainClick st env).st.lastCaseId = st.lastCaseId := by
  simp only [explainClick]
  repeat' split
  all_goals rfl

theorem mitreClick_lastCaseId (st : DomState) (env : Env) :
    (mitreClick st env).st.lastCaseId = st.lastCaseId := by
  simp only [mitreClick]
  repeat' split
  all_goals rfl

theorem ingestClear_lastCaseId (st : DomState) :
    (ingestClear st).st.lastCaseId = st.lastCaseId := rfl

theorem searchClear_lastCaseId (st : DomState) :
    (searchClear st).st.lastCaseId = st.lastCaseId := rfl

theorem copyClick_lastCaseId (st : DomState) (env : Env) :
    (copyClick st env).st.lastCaseId = st.lastCaseId := by
  simp only [copyClick]
  repeat' split
  all_goals rfl

theorem downloadClick_lastCaseId (st : DomState) :
    (downloadClick st).st.lastCaseId = st.lastCaseId := by
  simp only [downloadClick]
  repeat' split
  all_goals rfl

theorem ingestClick_ok_eq (st : DomState) (env : Env) (m : Json) (res : ApiValue)
    (htext : (jsTrim st.ingestText) ≠ "")
    (hmeta : parsedMetadata env (jsTrim st.ingestMetadata) = some m)
    (hcall : callApi env.jsonParse env.resp = Except.ok res) :
    ingestClick st env =
      { st := { st with
          ingestStatus := "Ingest OK.",
          ingestResult := pretty env res,
          lastCaseId := newCaseId st.lastCaseId res,
          ingestDisabled := false },
        calls := [{ path := "/ingest", method := "POST",
                    body := ReqBody.ingest (jsTrim st.ingestText) m }],
        trace := fullTrace "/ingest", clipboardWrites := [], downloads := [] } := by
  simp [ingestClick, htext, hmeta, hcall]

theorem ingestClick_err_eq (st : DomState) (env : Env) (m : Json) (e : ApiError)
    (htext : (jsTrim st.ingestText) ≠ "")
    (hmeta : parsedMetadata env (jsTrim st.ingestMetadata) = some m)
    (hcall : callApi env.jsonParse env.resp = Except.error e) :
    ingestClick st env =
      { st := { st with
          ingestStatus := "Error: " ++ toString e.status,
          ingestResult := pretty env e.body,
          ingestDisabled := false },
        calls := [{ path := "/ingest", method := "POST",
                    body := ReqBody.ingest (jsTrim st.ingestText) m }],
        trace := fullTrace "/ingest", clipboardWrites := [], downloads := [] } := by
  simp [ingestClick, htext, hmeta, hcall]

theorem ingestFileClick_ok_eq (st : DomState) (env : Env) (f : String) (res : ApiValue)
    (hfile : st.ingestFileSel = some f)
    (hcall : callApi env.jsonParse env.resp = Except.ok res) :
    ingestFileClick st env =
      { st := { st with
          ingestFileStatus := "File ingest OK.",
          ingestFileResult := pretty env res,
          lastCaseId := newCaseId st.lastCaseId res,
          ingestFileDisabled := false },
        calls := [{ path := "/ingest_file", method := "POST", body := ReqBody.file f }],
        trace := fullTrace "/ingest_file", clipboardWrites := [], downloads := [] } := by
  simp [ingestFileClick, hfile, hcall]

theorem ingestFileClick_err_eq (st : DomState) (env : Env) (f : String) (e : ApiError)
    (hfile : st.ingestFileSel = some f)
    (hcall : callApi env.jsonParse env.resp = Except.error e) :
    ingestFileClick st env =
      { st := { st with
          ingestFileStatus := "Error: " ++ toString e.status,
          ingestFileResult := pretty env e.body,
          ingestFileDisabled := false },
        calls := [{ path := "/ingest_file", method := "POST", body := ReqBody.file f }],
        trace := fullTrace "/ingest_file", clipboardWrites := [], downloads := [] } := by
  simp [ingestFileClick, hfile, hcall]

theorem searchClick_calls (st : DomState) (env : Env)
    (hq : (jsTrim st.searchQuery) ≠ "") (hc : st.lastCaseId.truthy = true) :
    (searchClick st env).calls =
      [{ path := "/search", method := "POST",
         body := ReqBody.search st.lastCaseId (jsTrim st.searchQuery)
           (topKOf st.searchTopK) st.searchIncludeMeta }] := by
  cases hcall : callApi env.jsonParse env.resp <;> simp [searchClick, hq, hc, hcall]

theorem searchClickA_calls (st : DomState) (env : Env)
    (hq : (jsTrim st.searchQuery) ≠ "") (hc : st.lastCaseId.truthy = true) :
    (searchClickA st env).calls =
      [{ path := "/search", method := "POST",
         body := ReqBody.search st.lastCaseId (jsTrim st.searchQuery)
           (topKOf st.searchTopK) st.searchIncludeMeta }] := by
  cases hcall : callApi env.jsonParse env.resp <;> simp [searchClickA, hq, hc, hcall]

theorem searchClickB_calls (st : DomState) (env : Env)
    (hq : (jsTrim st.searchQuery) ≠ "") (hc : (caseIdB st).truthy = true) :
    (searchClickB st env).calls =
      [{ path := "/search", method := "POST",
         body := ReqBody.search (caseIdB st) (jsTrim st.searchQuery)
           (topKOf st.searchTopK) st.searchIncludeMeta }] := by
  cases hcall : callApi env.jsonParse env.resp <;> simp [searchClickB, hq, hc, hcall]

theorem searchClickRC_calls (st : DomState) (env : Env)
    (hq : (jsTrim st.searchQuery) ≠ "") :
    (searchClickRC st env).calls =
      [{ path := "/search", method := "POST",
         body := ReqBody.searchNoCase (jsTrim st.searchQuery)
           (topKOfRC st.searchTopK) st.searchIncludeMeta }] := by
  cases hcall : callApi env.jsonParse env.resp <;> simp [searchClickRC, hq, hcall]

theorem explainClick_ok_eq (st : DomState) (env : Env) (res : ApiValue)
    (hc : st.lastCaseId.truthy = true)
    (hcall : callApi env.jsonParse env.resp = Except.ok res) :
    explainClick st env =
      { st := { st with
          explainStatus := "AI summary ready.",
          explainResult := explainRender env res,
          explainDisabled := false },
        calls := [{ path := "/explain_case", method := "POST",
                    body := ReqBody.explain st.lastCaseId }],
        trace := fullTrace "/explain_case", clipboardWrites := [], downloads := [] } := by
  simp [explainClick, hc, hcall]

theorem explainClick_err_eq (st : DomState) (env : Env) (e : ApiError)
    (hc : st.lastCaseId.truthy = true)
    (hcall : callApi env.jsonParse env.resp = Except.error e) :
    explainClick st env =
      { st := { st with
          explainStatus := "Error: " ++ toString e.status,
          explainResult := pretty env e.body,
          explainDisabled := false },
        calls := [{ path := "/explain_case", method := "POST",
                    body := ReqBody.explain st.lastCaseId }],
        trace := fullTrace "/explain_case", clipboardWrites := [], downloads := [] } := by
  simp [explainClick, hc, hcall]

/-- C2: for every path and options, callApi reads the full response
body as text and attempts to JSON-decode it, keeping the raw text as
the value when decoding fails; on a status outside the 2xx success
range it fails with an error carrying the status code and the
decoded-or-raw body, and otherwise it returns the decoded value. -/
theorem claim_C2_callApi_contract (p : String → Option Json) (r : HttpResponse) :
    (∀ j, p r.bodyText = some j → decodeOrRaw p r.bodyText = ApiValue.json j)
  ∧ (p r.bodyText = none → decodeOrRaw p r.bodyText = ApiValue.raw r.bodyText)
  ∧ (respOk r = false →
      callApi p r = Except.error { status := r.status, body := decodeOrRaw p r.bodyText })
  ∧ (respOk r = true → callApi p r = Except.ok (decodeOrRaw p r.bodyText)) := by
  refine ⟨fun j hj => ?_, fun hn => ?_,
    fun hf => callApi_error_of p r hf, fun ht => callApi_ok_of p r ht⟩
  · simp [decodeOrRaw, hj]
  · simp [decodeOrRaw, hn]

/-- C2 witness: a 404 with an undecodable body fails with the raw text
as body, and a 200 with a decodable body returns the decoded value. -/
theorem claim_C2_witness :
    callApi parse0 { status := 404, bodyText := "not json" } =
      Except.error { status := 404, body := ApiValue.raw "not json" }
  ∧ callApi parse0 { status := 200, bodyText := "ingest-response" } =
      Except.ok (ApiValue.json (Json.obj [("case_id", Json.str "c-123")])) := by
  constructor
  · exact (claim_C2_callApi_contract parse0 { status := 404, bodyText := "not json" }).2.2.1 rfl
  · exact (claim_C2_callApi_contract parse0 { status := 200, bodyText := "ingest-response" }).2.2.2 rfl

/-- C1: a case_id of a successful ingest response becomes the case
identifier sent by the next search request without re-entry: part_000
stores it in lastCaseId and its search sends the stored value; in the
variant with a case-id input field (part_001 variant B) an untouched or
blank field falls back to the stored value, while a manually entered
non-empty value takes precedence. -/
theorem claim_C1_case_id_reused (st : DomState) (env envS : Env) (res : ApiValue) (c : String)
    (hres : callApi env.jsonParse env.resp = Except.ok res)
    (hfield : apiField res "case_id" = some (Json.str c))
    (hc : c ≠ "")
    (htext : (jsTrim st.ingestText) ≠ "")
    (hmeta : ∃ m, parsedMetadata env (jsTrim st.ingestMetadata) = some m) :
    ((ingestClick st env).st.lastCaseId = Json.str c)
  ∧ (∀ st2 : DomState, st2.lastCaseId = Json.str c → (jsTrim st2.searchQuery) ≠ "" →
      (searchClick st2 envS).calls =
        [{ path := "/search", method := "POST",
           body := ReqBody.search (Json.str c) (jsTrim st2.searchQuery)
             (topKOf st2.searchTopK) st2.searchIncludeMeta }])
  ∧ (∀ st2 : DomState, st2.lastCaseId = Json.str c → (jsTrim st2.searchQuery) ≠ "" →
      (st2.caseIdInput = none ∨ ∃ v, st2.caseIdInput = some v ∧ (jsTrim v) = "") →
      (searchClickB st2 envS).calls =
        [{ path := "/search", method := "POST",
           body := ReqBody.search (Json.str c) (jsTrim st2.searchQuery)
             (topKOf st2.searchTopK) st2.searchIncludeMeta }])
  ∧ (∀ st2 : DomState, ∀ v, st2.caseIdInput = some v → (jsTrim v) ≠ "" →
      (jsTrim st2.searchQuery) ≠ "" →
      (searchClickB st2 envS).calls =
        [{ path := "/search", method := "POST",
           body := ReqBody.search (Json.str (jsTrim v)) (jsTrim st2.searchQuery)
             (topKOf st2.searchTopK) st2.searchIncludeMeta }]) := by
  obtain ⟨m, hm⟩ := hmeta
  refine ⟨?_, ?_, ?_, ?_⟩
  · rw [ingestClick_ok_eq st env m res htext hm hres]
    exact newCaseId_of_field st.lastCaseId res c hfield hc
  · intro st2 h1 h2
    have hc2 : st2.lastCaseId.truthy = true := by rw [h1]; exact truthy_str_of c hc
    have h3 := searchClick_calls st2 envS h2 hc2
    rw [h1] at h3
    exact h3
  · intro st2 h1 h2 h3
    have hB : caseIdB st2 = Json.str c := by
      rcases h3 with h3 | ⟨v, hv, hvt⟩
      · simp [caseIdB, h3, h1]
      · simp [caseIdB, hv, hvt, h1]
    have hc2 : (caseIdB st2).truthy = true := by rw [hB]; exact truthy_str_of c hc
    have h4 := searchClickB_calls st2 envS h2 hc2
    rw [hB] at h4
    exact h4
  · intro st2 v hv hvt hq
    have hB : caseIdB st2 = Json.str (jsTrim v) := by simp [caseIdB, hv, hvt]
    have hc2 : (caseIdB st2).truthy = true := by rw [hB]; exact truthy_str_of (jsTrim v) hvt
    have h4 := searchClickB_calls st2 envS hq hc2
    rw [hB] at h4
    exact h4

/-- C1 witness: ingesting "evidence log" against a 200 response with
case_id c-123 stores c-123, and a later search with a blank case field
sends exactly that identifier. -/
theorem claim_C1_witness :
    (ingestClick stIngest (env200 "ingest-response")).st.lastCaseId = Json.str "c-123"
  ∧ (searchClickB stSearch (env200 "search-response")).calls =
      [{ path := "/search", method := "POST",
         body := ReqBody.search (Json.str "c-123") "errors" (some 5) false }] := by
  have h := claim_C1_case_id_reused stIngest (env200 "ingest-response")
    (env200 "search-response") resIngest "c-123" rfl rfl (by decide) (by decide)
    ⟨Json.obj [("source", Json.str "ui")], rfl⟩
  exact ⟨h.1, h.2.2.1 stSearch rfl (by decide) (Or.inl rfl)⟩

/-- C3: an ingest, file-ingest or search click with the required input
empty (no text, no file, no query), or with a non-empty metadata field
that does not parse as JSON, sets a local validation status message and
performs zero network calls. -/
theorem claim_C3_local_validation (st : DomState) (env : Env) :
    ((jsTrim st.ingestText) = "" →
        (ingestClick st env).calls = [] ∧
        (ingestClick st env).st.ingestStatus = "Enter text." ∧
        (ingestClickB st env).calls = [] ∧
        (ingestClickB st env).st.ingestStatus = "Enter text.")
  ∧ ((jsTrim st.ingestText) ≠ "" → (jsTrim st.ingestMetadata) ≠ "" →
        env.jsonParse (jsTrim st.ingestMetadata) = none →
        (ingestClick st env).calls = [] ∧
        (ingestClick st env).st.ingestStatus = "Invalid metadata JSON." ∧
        (ingestClickB st env).calls = [] ∧
        (ingestClickB st env).st.ingestStatus = "Invalid metadata JSON.")
  ∧ (st.ingestFileSel = none →
        (ingestFileClick st env).calls = [] ∧
        (ingestFileClick st env).st.ingestFileStatus = "Choose a file first.")
  ∧ ((jsTrim st.searchQuery) = "" →
        (searchClick st env).calls = [] ∧
        (searchClick st env).st.searchStatus = "Enter query." ∧
        (searchClickA st env).calls = [] ∧
        (searchClickA st env).st.searchStatus = "Enter query." ∧
        (searchClickB st env).calls = [] ∧
        (searchClickB st env).st.searchStatus = "Enter query." ∧
        (searchClickRC st env).calls = [] ∧
        (searchClickRC st env).st.searchStatus = "Enter query.") := by
  refine ⟨fun h => ?_, fun ht hm hp => ?_, fun h => ?_, fun h => ?_⟩
  · simp [ingestClick, ingestClickB, noCall, h]
  · have hpm : parsedMetadata env (jsTrim st.ingestMetadata) = none := by
      simp [parsedMetadata, hm, hp]
    simp [ingestClick, ingestClickB, noCall, ht, hpm]
  · simp [ingestFileClick, noCall, h]
  · simp [searchClick, searchClickA, searchClickB, searchClickRC, noCall, h]

/-- C3 witness: on the empty page a click of each control yields the
local message and no network call. -/
theorem claim_C3_witness :
    ((ingestClick baseState (env200 "ingest-response")).calls = [] ∧
      (ingestClick baseState (env200 "ingest-response")).st.ingestStatus = "Enter text.")
  ∧ ((ingestFileClick baseState (env200 "ingest-response")).calls = [] ∧
      (ingestFileClick baseState (env200 "ingest-response")).st.ingestFileStatus =
        "Choose a file first.")
  ∧ ((searchClick baseState (env200 "search-response")).calls = [] ∧
      (searchClick baseState (env200 "search-response")).st.searchStatus = "Enter query.") := by
  have h := claim_C3_local_validation baseState (env200 "ingest-response")
  have h2 := claim_C3_local_validation baseState (env200 "search-response")
  have h1 := h.1 rfl
  have h3 := h.2.2.1 rfl
  have h4 := h2.2.2.2 rfl
  exact ⟨⟨h1.1, h1.2.1⟩, ⟨h3.1, h3.2⟩, ⟨h4.1, h4.2.1⟩⟩

/-- C4 counterexample: in the rag_console.js variant no case identifier
is ever current (the script has no lastCaseId and never checks one),
yet a search click with a non-empty query issues a network call instead
of failing locally, so the claimed behavior does not hold in every
variant. -/
theorem claim_C4_counterexample :
    stSearchNoCase.lastCaseId.truthy = false
  ∧ (searchClickRC stSearchNoCase (env200 "search-response")).calls ≠ [] := by
  refine ⟨rfl, ?_⟩
  have h : (searchClickRC stSearchNoCase (env200 "search-response")).calls =
      [{ path := "/search", method := "POST",
         body := ReqBody.searchNoCase "list users" (some 5) false }] := rfl
  rw [h]
  simp

/-- C4 amended: in the three variants that maintain a current case
identifier (part_000 and both part_001 variants), a search click with
no current case identifier fails fast with a local status message and
no network call; the rag_console.js variant keeps no case identifier
and issues the search request regardless. -/
theorem claim_C4_missing_case_id (st : DomState) (env : Env)
    (hq : (jsTrim st.searchQuery) ≠ "") :
    (st.lastCaseId.truthy = false →
        (searchClick st env).calls = [] ∧
        (searchClick st env).st.searchStatus = "Missing case_id: ingest first." ∧
        (searchClickA st env).calls = [] ∧
        (searchClickA st env).st.searchStatus = "Missing case_id: ingest first (text or file).")
  ∧ ((caseIdB st).truthy = false →
        (searchClickB st env).calls = [] ∧
        (searchClickB st env).st.searchStatus =
          "Missing case_id: ingest text first or enter a case id.")
  ∧ ((searchClickRC st env).calls ≠ []) := by
  refine ⟨fun hc => ?_, fun hc => ?_, ?_⟩
  · simp [searchClick, searchClickA, noCall, hq, hc]
  · simp [searchClickB, noCall, hq, hc]
  · rw [searchClickRC_calls st env hq]
    simp

/-- C4 witness: with a query typed but no identifier ever stored, the
part_000 search fails locally with no call, while the rag_console
search still issues a request. -/
theorem claim_C4_witness :
    ((searchClick stSearchNoCase (env200 "search-response")).calls = [] ∧
      (searchClick stSearchNoCase (env200 "search-response")).st.searchStatus =
        "Missing case_id: ingest first.")
  ∧ (searchClickRC stSearchNoCase (env200 "search-response")).calls ≠ [] := by
  have h := claim_C4_missing_case_id stSearchNoCase (env200 "search-response") (by decide)
  have h1 := h.1 rfl
  exact ⟨⟨h1.1, h1.2.1⟩, h.2.2⟩

/-- C5 counterexample: with the top_k field holding the non-numeric
text "abc", the search request body carries NaN (serialized as null,
modelled as none), not 5, so the claimed default does not apply to
non-numeric input. -/
theorem claim_C5_counterexample :
    stTopK.searchTopK = "abc"
  ∧ (searchClick stTopK (env200 "search-response")).calls =
      [{ path := "/search", method := "POST",
         body := ReqBody.search (Json.str "c-123") "login failures" none false }]
  ∧ (none : Option Int) ≠ some 5 := by
  refine ⟨rfl, rfl, by simp⟩

/-- C5 amended: every search handler sends as top_k the value of
parseInt applied to the field with "5" substituted only for an empty
field, so top_k equals 5 when the field is empty and equals the parsed
integer of its content otherwise, with NaN (serialized as null) for
non-numeric content; part_000 and both part_001 variants parse with
radix 10, while rag_console.js omits the radix, so there a 0x prefix is
read as hexadecimal. -/
theorem claim_C5_top_k (st : DomState) (env : Env)
    (hq : (jsTrim st.searchQuery) ≠ "") :
    (st.lastCaseId.truthy = true →
        (searchClick st env).calls =
          [{ path := "/search", method := "POST",
             body := ReqBody.search st.lastCaseId (jsTrim st.searchQuery)
               (topKOf st.searchTopK) st.searchIncludeMeta }]
        ∧ (searchClickA st env).calls =
          [{ path := "/search", method := "POST",
             body := ReqBody.search st.lastCaseId (jsTrim st.searchQuery)
               (topKOf st.searchTopK) st.searchIncludeMeta }])
  ∧ ((caseIdB st).truthy = true →
        (searchClickB st env).calls =
          [{ path := "/search", method := "POST",
             body := ReqBody.search (caseIdB st) (jsTrim st.searchQuery)
               (topKOf st.searchTopK) st.searchIncludeMeta }])
  ∧ ((searchClickRC st env).calls =
      [{ path := "/search", method := "POST",
         body := ReqBody.searchNoCase (jsTrim st.searchQuery)
           (topKOfRC st.searchTopK) st.searchIncludeMeta }])
  ∧ (st.searchTopK = "" →
        topKOf st.searchTopK = some 5 ∧ topKOfRC st.searchTopK = some 5)
  ∧ (st.searchTopK ≠ "" →
        topKOf st.searchTopK = parseIntJS st.searchTopK
        ∧ topKOfRC st.searchTopK = parseIntJSAuto st.searchTopK) := by
  refine ⟨fun hc => ⟨searchClick_calls st env hq hc, searchClickA_calls st env hq hc⟩,
    fun hc => searchClickB_calls st env hq hc,
    searchClickRC_calls st env hq,
    fun h => ?_, fun h => ?_⟩
  · rw [h]; exact ⟨by decide, by decide⟩
  · simp [topKOf, topKOfRC, h]

/-- C5 witness: an empty top_k field sends 5 in every variant; "abc"
is sent as NaN by the rag_console handler; "12" parses to 12 in both
parses, while "0x10" is 16 under the radix-free parse of rag_console
and 0 under the radix-10 parse of the other variants. -/
theorem claim_C5_witness :
    (searchClick stSearch (env200 "search-response")).calls =
      [{ path := "/search", method := "POST",
         body := ReqBody.search (Json.str "c-123") "errors" (some 5) false }]
  ∧ (searchClickRC stTopK (env200 "search-response")).calls =
      [{ path := "/search", method := "POST",
         body := ReqBody.searchNoCase "login failures" none false }]
  ∧ topKOf "12" = some 12 ∧ topKOfRC "12" = some 12
  ∧ topKOfRC "0x10" = some 16 ∧ topKOf "0x10" = some 0 := by
  have h := claim_C5_top_k stSearch (env200 "search-response") (by decide)
  have h2 := claim_C5_top_k stTopK (env200 "search-response") (by decide)
  exact ⟨(h.1 rfl).1, h2.2.2.1, by decide, by decide, by decide, by decide⟩

/-- C6: lastCaseId is overwritten by each successful ingest (text or
file) whose response carries a case identifier, and left unchanged by a
failed ingest and by every search, explain, MITRE extraction, clear and
export operation. -/
theorem claim_C6_current_case_id (st : DomState) (env : Env) :
    (∀ res c, callApi env.jsonParse env.resp = Except.ok res →
        apiField res "case_id" = some (Json.str c) → c ≠ "" →
        (jsTrim st.ingestText) ≠ "" →
        ∀ m, parsedMetadata env (jsTrim st.ingestMetadata) = some m →
          (ingestClick st env).st.lastCaseId = Json.str c)
  ∧ (∀ res c f, callApi env.jsonParse env.resp = Except.ok res →
        apiField res "case_id" = some (Json.str c) → c ≠ "" →
        st.ingestFileSel = some f →
        (ingestFileClick st env).st.lastCaseId = Json.str c)
  ∧ (∀ e, callApi env.jsonParse env.resp = Except.error e →
        (ingestClick st env).st.lastCaseId = st.lastCaseId)
  ∧ (∀ e, callApi env.jsonParse env.resp = Except.error e →
        (ingestFileClick st env).st.lastCaseId = st.lastCaseId)
  ∧ (searchClick st env).st.lastCaseId = st.lastCaseId
  ∧ (searchClickA st env).st.lastCaseId = st.lastCaseId
  ∧ (searchClickB st env).st.lastCaseId = st.lastCaseId
  ∧ (searchClickRC st env).st.lastCaseId = st.lastCaseId
  ∧ (explainClick st env).st.lastCaseId = st.lastCaseId
  ∧ (mitreClick st env).st.lastCaseId = st.lastCaseId
  ∧ (ingestClear st).st.lastCaseId = st.lastCaseId
  ∧ (searchClear st).st.lastCaseId = st.lastCaseId
  ∧ (copyClick st env).st.lastCaseId = st.lastCaseId
  ∧ (downloadClick st).st.lastCaseId = st.lastCaseId := by
  refine ⟨?_, ?_, ?_, ?_,
    searchClick_lastCaseId st env, searchClickA_lastCaseId st env,
    searchClickB_lastCaseId st env, searchClickRC_lastCaseId st env,
    explainClick_lastCaseId st env, mitreClick_lastCaseId st env,
    ingestClear_lastCaseId st, searchClear_lastCaseId st,
    copyClick_lastCaseId st env, downloadClick_lastCaseId st⟩
  · intro res c hres hfield hc htext m hm
    rw [ingestClick_ok_eq st env m res htext hm hres]
    exact newCaseId_of_field st.lastCaseId res c hfield hc
  · intro res c f hres hfield hc hfile
    rw [ingestFileClick_ok_eq st env f res hfile hres]
    exact newCaseId_of_field st.lastCaseId res c hfield hc
  · intro e he
    by_cases htext : (jsTrim st.ingestText) = ""
    · simp [ingestClick, noCall, htext]
    · cases hm : parsedMetadata env (jsTrim st.ingestMetadata) with
      | none => simp [ingestClick, noCall, htext, hm]
      | some m => rw [ingestClick_err_eq st env m e htext hm he]
  · intro e he
    cases hfile : st.ingestFileSel with
    | none => simp [ingestFileClick, noCall, hfile]
    | some f => rw [ingestFileClick_err_eq st env f e hfile he]

/-- C6 witness: a successful text ingest overwrites the identifier, a
404 ingest leaves it unchanged, and a clear leaves it unchanged. -/
theorem claim_C6_witness :
    (ingestClick stIngest (env200 "ingest-response")).st.lastCaseId = Json.str "c-123"
  ∧ (ingestClick stIngest (env404 "oops")).st.lastCaseId = Json.str ""
  ∧ (ingestClear stExplain).st.lastCaseId = Json.str "c-123" := by
  have h1 := (claim_C6_current_case_id stIngest (env200 "ingest-response")).1
    resIngest "c-123" rfl rfl (by decide) (by decide)
    (Json.obj [("source", Json.str "ui")]) rfl
  have h2 := (claim_C6_current_case_id stIngest (env404 "oops")).2.2.1
    { status := 404, body := ApiValue.raw "oops" } rfl
  have h3 := (claim_C6_current_case_id stExplain (env404 "oops")).2.2.2.2.2.2.2.2.2.2.1
  exact ⟨h1, h2, h3⟩

/-- C7: a button-triggered operation that passes local validation runs
strictly in the order validate, disable, request, render, enable; the
trigger ends re-enabled on success and on API failure alike, and every
non-2xx response renders both the numeric status code and the response
body.  Shown for the ingest, search and explain handlers. -/
theorem claim_C7_sequencing (st : DomState) (env : Env) :
    ((jsTrim st.ingestText) ≠ "" →
      ∀ m, parsedMetadata env (jsTrim st.ingestMetadata) = some m →
        (ingestClick st env).trace =
          [Event.validated, Event.disabled, Event.req "/ingest",
           Event.rendered, Event.enabled]
        ∧ (ingestClick st env).st.ingestDisabled = false
        ∧ (respOk env.resp = false →
            (ingestClick st env).st.ingestStatus =
              "Error: " ++ toString env.resp.status
            ∧ (ingestClick st env).st.ingestResult =
              pretty env (decodeOrRaw env.jsonParse env.resp.bodyText)))
  ∧ ((jsTrim st.searchQuery) ≠ "" → st.lastCaseId.truthy = true →
        (searchClick st env).trace =
          [Event.validated, Event.disabled, Event.req "/search",
           Event.rendered, Event.enabled]
        ∧ (searchClick st env).st.searchDisabled = false
        ∧ (respOk env.resp = false →
            (searchClick st env).st.searchStatus =
              "Error: " ++ toString env.resp.status
            ∧ (searchClick st env).st.searchResult =
              pretty env (decodeOrRaw env.jsonParse env.resp.bodyText)))
  ∧ (st.lastCaseId.truthy = true →
        (explainClick st env).trace =
          [Event.validated, Event.disabled, Event.req "/explain_case",
           Event.rendered, Event.enabled]
        ∧ (explainClick st env).st.explainDisabled = false
        ∧ (respOk env.resp = false →
            (explainClick st env).st.explainStatus =
              "Error: " ++ toString env.resp.status
            ∧ (explainClick st env).st.explainResult =
              pretty env (decodeOrRaw env.jsonParse env.resp.bodyText))) := by
  refine ⟨fun htext m hm => ?_, fun hq hc => ?_, fun hc => ?_⟩
  · cases hOk : respOk env.resp with
    | true =>
        rw [ingestClick_ok_eq st env m (decodeOrRaw env.jsonParse env.resp.bodyText)
          htext hm (callApi_ok_of env.jsonParse env.resp hOk)]
        exact ⟨rfl, rfl, fun hf => absurd hf (by decide)⟩
    | false =>
        rw [ingestClick_err_eq st env m
          { status := env.resp.status, body := decodeOrRaw env.jsonParse env.resp.bodyText }
          htext hm (callApi_error_of env.jsonParse env.resp hOk)]
        exact ⟨rfl, rfl, fun _ => ⟨rfl, rfl⟩⟩
  · cases hOk : respOk env.resp with
    | true =>
        have hcall := callApi_ok_of env.jsonParse env.resp hOk
        refine ⟨?_, ?_, fun hf => absurd hf (by decide)⟩ <;>
          simp [searchClick, fullTrace, hq, hc, hcall]
    | false =>
        have hcall := callApi_error_of env.jsonParse env.resp hOk
        refine ⟨?_, ?_, fun _ => ⟨?_, ?_⟩⟩ <;> simp [searchClick, fullTrace, hq, hc, hcall]
  · cases hOk : respOk env.resp with
    | true =>
        rw [explainClick_ok_eq st env (decodeOrRaw env.jsonParse env.resp.bodyText)
          hc (callApi_ok_of env.jsonParse env.resp hOk)]
        exact ⟨rfl, rfl, fun hf => absurd hf (by decide)⟩
    | false =>
        rw [explainClick_err_eq st env
          { status := env.resp.status, body := decodeOrRaw env.jsonParse env.resp.bodyText }
          hc (callApi_error_of env.jsonParse env.resp hOk)]
        exact ⟨rfl, rfl, fun _ => ⟨rfl, rfl⟩⟩

/-- C7 witness: an ingest against a 404 response runs the full event
sequence, re-enables the button, and renders status 404 with the body. -/
theorem claim_C7_witness :
    (ingestClick stIngest (env404 "oops")).trace =
      [Event.validated, Event.disabled, Event.req "/ingest",
       Event.rendered, Event.enabled]
  ∧ (ingestClick stIngest (env404 "oops")).st.ingestDisabled = false
  ∧ (ingestClick stIngest (env404 "oops")).st.ingestStatus = "Error: 404"
  ∧ (ingestClick stIngest (env404 "oops")).st.ingestResult = "serialized" := by
  have h := (claim_C7_sequencing stIngest (env404 "oops")).1 (by decide)
    (Json.obj [("source", Json.str "ui")]) rfl
  have h3 := h.2.2 rfl
  exact ⟨h.1, h.2.1, h3.1, h3.2⟩

/-- C8 counterexample: against a response whose summary property is
present but the empty string, the explain handler renders the full
pretty-printed response, not the summary field, because the source
tests truthiness rather than presence. -/
theorem claim_C8_counterexample :
    apiField resSummaryEmpty "summary" = some (Json.str "")
  ∧ (explainClick stExplain (env200 "summary-empty")).st.explainResult =
      pretty (env200 "summary-empty") resSummaryEmpty
  ∧ pretty (env200 "summary-empty") resSummaryEmpty = "serialized"
  ∧ ("serialized" : String) ≠ "" := by
  exact ⟨rfl, rfl, rfl, by decide⟩

/-- C8 amended: with a current case identifier the explain click posts
the case id to /explain_case and renders the summary field when it is
present as a non-empty string, falling back to the full pretty-printed
response when the field is absent or empty; without a current case
identifier it fails locally with a status message and no network call. -/
theorem claim_C8_explain (st : DomState) (env : Env) :
    (st.lastCaseId.truthy = false →
        (explainClick st env).calls = []
        ∧ (explainClick st env).st.explainStatus = "No case selected.")
  ∧ (st.lastCaseId.truthy = true →
        (explainClick st env).calls =
          [{ path := "/explain_case", method := "POST",
             body := ReqBody.explain st.lastCaseId }]
        ∧ (∀ res s, callApi env.jsonParse env.resp = Except.ok res →
            apiField res "summary" = some (Json.str s) → s ≠ "" →
            (explainClick st env).st.explainResult = s)
        ∧ (∀ res, callApi env.jsonParse env.resp = Except.ok res →
            apiField res "summary" = none →
            (explainClick st env).st.explainResult = pretty env res)
        ∧ (∀ res, callApi env.jsonParse env.resp = Except.ok res →
            apiField res "summary" = some (Json.str "") →
            (explainClick st env).st.explainResult = pretty env res)) := by
  refine ⟨fun hc => ?_, fun hc => ⟨?_, fun res s hres hf hs => ?_, fun res hres hf => ?_,
    fun res hres hf => ?_⟩⟩
  · simp [explainClick, noCall, hc]
  · cases hcall : callApi env.jsonParse env.resp with
    | ok res => rw [explainClick_ok_eq st env res hc hcall]
    | error e => rw [explainClick_err_eq st env e hc hcall]
  · rw [explainClick_ok_eq st env res hc hres]
    show explainRender env res = s
    simp [explainRender, hf, hs]
  · rw [explainClick_ok_eq st env res hc hres]
    show explainRender env res = pretty env res
    simp [explainRender, hf]
  · rw [explainClick_ok_eq st env res hc hres]
    show explainRender env res = pretty env res
    simp [explainRender, hf]

/-- C8 witness: with a stored case id, the explain click posts it and
renders the non-empty summary of the response; with no case id the
click fails locally. -/
theorem claim_C8_witness :
    ((explainClick stExplain (env200 "summary-good")).calls =
      [{ path := "/explain_case", method := "POST",
         body := ReqBody.explain (Json.str "c-123") }])
  ∧ (explainClick stExplain (env200 "summary-good")).st.explainResult = "All quiet"
  ∧ (explainClick baseState (env200 "summary-good")).calls = []
  ∧ (explainClick baseState (env200 "summary-good")).st.explainStatus = "No case selected." := by
  have h := (claim_C8_explain stExplain (env200 "summary-good")).2 rfl
  have h0 := (claim_C8_explain baseState (env200 "summary-good")).1 rfl
  exact ⟨h.1, h.2.1 (ApiValue.json (Json.obj [("summary", Json.str "All quiet")]))
    "All quiet" rfl rfl (by decide), h0.1, h0.2⟩

/-- C9: the ingest-clear and search-clear clicks reset exactly their
own input, status and result regions, make no network call, and leave
lastCaseId unchanged, so a later search still reuses the identifier of
the last successful ingest. -/
theorem claim_C9_clear_frame (st : DomState) :
    ingestClear st =
      { st := { st with
          ingestText := "",
          ingestMetadata := "",
          ingestStatus := "",
          ingestResult := "\x7b\x7d" },
        calls := [], trace := [], clipboardWrites := [], downloads := [] }
  ∧ searchClear st =
      { st := { st with
          searchQuery := "",
          searchResult := "\x7b\x7d",
          searchStatus := "" },
        calls := [], trace := [], clipboardWrites := [], downloads := [] }
  ∧ (ingestClear st).st.lastCaseId = st.lastCaseId
  ∧ (searchClear st).st.lastCaseId = st.lastCaseId
  ∧ (∀ env q, (jsTrim q) ≠ "" → st.lastCaseId.truthy = true →
      (searchClick { (searchClear st).st with searchQuery := q } env).calls =
        [{ path := "/search", method := "POST",
           body := ReqBody.search st.lastCaseId (jsTrim q)
             (topKOf st.searchTopK) st.searchIncludeMeta }]) := by
  refine ⟨rfl, rfl, rfl, rfl, fun env q hq hc => ?_⟩
  exact searchClick_calls { (searchClear st).st with searchQuery := q } env hq hc

/-- C9 witness: clearing the search pane keeps the stored identifier,
and a search typed afterwards still sends it. -/
theorem claim_C9_witness :
    (searchClear stExplain).st.lastCaseId = Json.str "c-123"
  ∧ (searchClick { (searchClear stExplain).st with searchQuery := "errors" }
      (env200 "search-response")).calls =
      [{ path := "/search", method := "POST",
         body := ReqBody.search (Json.str "c-123") "errors" (some 5) false }] := by
  have h := claim_C9_clear_frame stExplain
  exact ⟨h.2.2.2.1, h.2.2.2.2 (env200 "search-response") "errors" (by decide) rfl⟩

/-- C10: a report copy or download click while the rendered summary
region is empty or still holds the placeholder only sets a status
message telling the user to run Explain Case first: no clipboard write,
no download, no network call. -/
theorem claim_C10_export_guard (st : DomState) (env : Env)
    (h : st.explainResult = "" ∨ st.explainResult = "\x7b\x7d") :
    (copyClick st env).clipboardWrites = []
  ∧ (copyClick st env).downloads = []
  ∧ (copyClick st env).calls = []
  ∧ (copyClick st env).st.explainStatus = "Nothing to copy yet. Run Explain Case first."
  ∧ (downloadClick st).downloads = []
  ∧ (downloadClick st).clipboardWrites = []
  ∧ (downloadClick st).calls = []
  ∧ (downloadClick st).st.explainStatus = "Nothing to download yet. Run Explain Case first." := by
  have ht : (jsTrim st.explainResult) = "" ∨ (jsTrim st.explainResult) = "\x7b\x7d" := by
    rcases h with h | h
    · exact Or.inl (by rw [h]; rfl)
    · exact Or.inr (by rw [h]; rfl)
  refine ⟨?_, ?_, ?_, ?_, ?_, ?_, ?_, ?_⟩ <;> simp [copyClick, downloadClick, noCall, ht]

/-- C10 witness: on the fresh page, whose summary region holds the
placeholder, both export clicks only set their status messages. -/
theorem claim_C10_witness :
    (copyClick baseState (env200 "summary-good")).clipboardWrites = []
  ∧ (copyClick baseState (env200 "summary-good")).st.explainStatus =
      "Nothing to copy yet. Run Explain Case first."
  ∧ (downloadClick baseState).downloads = []
  ∧ (downloadClick baseState).st.explainStatus =
      "Nothing to download yet. Run Explain Case first." := by
  have h := claim_C10_export_guard baseState (env200 "summary-good") (Or.inr rfl)
  exact ⟨h.1, h.2.2.2.1, h.2.2.2.2.1, h.2.2.2.2.2.2.2⟩
